import Mathlib

/-!
Verification of the golf-game physics and terrain core (physics.js, ui.js).
The definitions below are a shallow embedding of the JavaScript source over
the real numbers; theorems settle the frozen claims about that source.
-/

namespace GolfGame

noncomputable section

/-- Model of THREE.Vector3 over the reals. -/
structure Vec3 where
  x : ℝ
  y : ℝ
  z : ℝ

/-- Squared magnitude, as computed by THREE.Vector3.lengthSq. -/
def Vec3.lengthSq (v : Vec3) : ℝ := v.x ^ 2 + v.y ^ 2 + v.z ^ 2

/-- Magnitude, as computed by THREE.Vector3.length. -/
def Vec3.length (v : Vec3) : ℝ := Real.sqrt v.lengthSq

/-- Componentwise sum, as computed by THREE.Vector3.add. -/
def Vec3.add (a b : Vec3) : Vec3 := ⟨a.x + b.x, a.y + b.y, a.z + b.z⟩

/-- Per-club record from PhysicsEngine.clubStats: launch angle in degrees
and power multiplier. -/
structure ClubStat where
  angle : ℝ
  multiplier : ℝ

/-- The driver entry of the club table. -/
def driverStat : ClubStat := ⟨12, 2.8⟩

/-- The shared club table PhysicsEngine.clubStats, keyed by club identifier;
a missing key models the undefined lookup in JS. -/
def clubStats (club : String) : Option ClubStat :=
  if club = "driver" then some ⟨12, 2.8⟩
  else if club = "5wood" then some ⟨18, 2.0⟩
  else if club = "7iron" then some ⟨34, 1.2⟩
  else if club = "9iron" then some ⟨42, 0.9⟩
  else if club = "pitchingWedge" then some ⟨46, 0.7⟩
  else if club = "sandWedge" then some ⟨56, 0.6⟩
  else if club = "putter" then some ⟨4, 0.2⟩
  else none

/-- Lookup with fallback, modelling the expression
clubStats[club] || clubStats.driver. -/
def clubConfigFor (club : String) : ClubStat := (clubStats club).getD driverStat

/-- THREE.MathUtils.degToRad. -/
def degToRad (degrees : ℝ) : ℝ := degrees * (Real.pi / 180)

/-- Ball state owned by the physics engine: position, velocity and the two
motion-mode flags, plus the spin scalar set on each shot. -/
structure Ball where
  position : Vec3
  velocity : Vec3
  inAir : Bool
  onGround : Bool
  spin : ℝ

/-- Hole descriptor: cup position and capture radius. -/
structure Hole where
  position : Vec3
  radius : ℝ

/-- Wind state: speed, direction in radians, and the wall-clock time of the
last refresh.  The update interval 2.0 and force scale 0.1 are constants. -/
structure Wind where
  speed : ℝ
  direction : ℝ
  lastUpdate : ℝ

/-- Surface-type string constants used by the terrain classification. -/
def surfaceRough : String := "rough"

def surfaceGreen : String := "green"

def surfaceFairway : String := "fairway"

def surfaceBunker : String := "bunker"

def surfaceTee : String := "tee"

/-- Terrain state: world extents, grid resolution, and the flat height and
surface grids of (resolution+1) squared vertices. -/
structure Terrain where
  width : ℝ
  depth : ℝ
  resolution : ℕ
  heightMap : List ℝ
  surfaceMap : List String

/-- Bounds-checked indexing into the height grid, modelling the JS guard
idx >= 0 && idx < heightMap.length ? heightMap[idx] : 0. -/
def safeGet (l : List ℝ) (i : ℤ) : ℝ :=
  if 0 ≤ i ∧ i < (l.length : ℤ) then l.getD i.toNat 0 else 0

/-- Terrain.getHeightAt from ui.js: out-of-bounds queries return 0, otherwise
bilinear interpolation over the four enclosing grid vertices. -/
def Terrain.getHeightAt (t : Terrain) (x z : ℝ) : ℝ :=
  let halfW := t.width / 2
  let halfD := t.depth / 2
  if x < -halfW ∨ x > halfW ∨ z < -halfD ∨ z > halfD then 0
  else
    let gridX : ℤ := ⌊(x + halfW) / t.width * (t.resolution : ℝ)⌋
    let gridZ : ℤ := ⌊(z + halfD) / t.depth * (t.resolution : ℝ)⌋
    let fracX := (x + halfW) / t.width * (t.resolution : ℝ) - (gridX : ℝ)
    let fracZ := (z + halfD) / t.depth * (t.resolution : ℝ) - (gridZ : ℝ)
    let rowWidth : ℤ := (t.resolution : ℤ) + 1
    let idx00 := gridZ * rowWidth + gridX
    let idx10 := gridZ * rowWidth + min (gridX + 1) (t.resolution : ℤ)
    let idx01 := min (gridZ + 1) (t.resolution : ℤ) * rowWidth + gridX
    let idx11 := min (gridZ + 1) (t.resolution : ℤ) * rowWidth + min (gridX + 1) (t.resolution : ℤ)
    let h00 := safeGet t.heightMap idx00
    let h10 := safeGet t.heightMap idx10
    let h01 := safeGet t.heightMap idx01
    let h11 := safeGet t.heightMap idx11
    let h0 := h00 * (1 - fracX) + h10 * fracX
    let h1 := h01 * (1 - fracX) + h11 * fracX
    h0 * (1 - fracZ) + h1 * fracZ

/-- Terrain.getSurfaceTypeAt from ui.js: out-of-bounds queries return rough,
otherwise the nearest-vertex surface classification. -/
def Terrain.getSurfaceTypeAt (t : Terrain) (x z : ℝ) : String :=
  let halfW := t.width / 2
  let halfD := t.depth / 2
  if x < -halfW ∨ x > halfW ∨ z < -halfD ∨ z > halfD then surfaceRough
  else
    let gridX : ℤ := ⌊(x + halfW) / t.width * (t.resolution : ℝ)⌋
    let gridZ : ℤ := ⌊(z + halfD) / t.depth * (t.resolution : ℝ)⌋
    let rowWidth : ℤ := (t.resolution : ℤ) + 1
    let idx := gridZ * rowWidth + gridX
    if 0 ≤ idx ∧ idx < (t.surfaceMap.length : ℤ) then t.surfaceMap.getD idx.toNat surfaceRough
    else surfaceRough

/-- PhysicsEngine.getTerrainHeightAt: null terrain and far-out coordinates
fall back to height 0, otherwise the terrain query is used. -/
def getTerrainHeightAt (ot : Option Terrain) (x z : ℝ) : ℝ :=
  match ot with
  | none => 0
  | some t => if 500 < |x| ∨ 500 < |z| then 0 else t.getHeightAt x z

/-- PhysicsEngine.calculateShot: clamps very small input velocity to 1, looks
up the club (driver fallback), scales by the club multiplier, splits into
components via the launch angle, rotates the horizontal part by the aim angle,
forces the in-air mode, sets spin and nudges the ball upward.  Returns the
updated ball together with the boolean result (always true). -/
def calculateShot (ball : Ball) (initialVelocity aimAngle : ℝ) (club : String) :
    Ball × Bool :=
  let iv := if initialVelocity < 1 then 1 else initialVelocity
  let clubConfig := clubConfigFor club
  let radAngle := degToRad clubConfig.angle
  let totalVelocity := iv * clubConfig.multiplier
  let horizontalVelocity := totalVelocity * Real.cos radAngle
  let verticalVelocity := totalVelocity * Real.sin radAngle
  let v : Vec3 :=
    ⟨horizontalVelocity * Real.cos aimAngle,
     verticalVelocity,
     horizontalVelocity * -Real.sin aimAngle⟩
  ({ ball with
      velocity := v
      inAir := true
      onGround := false
      spin := 0.1
      position := ⟨ball.position.x, ball.position.y + 0.05, ball.position.z⟩ },
   true)

/-- PhysicsEngine.updateWind: when the update interval (2 seconds) has
elapsed, perturb direction and speed by the random draws r1 and r2 in [0,1]
and clamp the speed into [5,20]; otherwise leave the wind unchanged. -/
def updateWind (w : Wind) (currentTime r1 r2 : ℝ) : Wind :=
  if currentTime - w.lastUpdate > 2 then
    { direction := w.direction + (r1 - 0.5) * Real.pi / 8
      speed := max 5 (min 20 (w.speed + (r2 - 0.5) * 5))
      lastUpdate := currentTime }
  else w

/-- The initial wind state from the PhysicsEngine constructor. -/
def initWind : Wind := ⟨5, Real.pi / 4, 0⟩

/-- Wind state after a finite sequence of updateWind calls, each given a
current time and the two random draws. -/
def windAfter (l : List (ℝ × ℝ × ℝ)) : Wind :=
  l.foldl (fun w p => updateWind w p.1 p.2.1 p.2.2) initWind

/-- PhysicsEngine.getWindForce with the constant force scale 0.1. -/
def getWindForce (w : Wind) : Vec3 :=
  ⟨Real.cos w.direction * w.speed * 0.1, 0, Real.sin w.direction * w.speed * 0.1⟩

/-- The base friction table from the PhysicsEngine constructor; a missing key
models the undefined lookup. -/
def frictionBase (s : String) : Option ℝ :=
  if s = surfaceFairway then some 0.85
  else if s = surfaceRough then some 0.80
  else if s = surfaceGreen then some 0.95
  else if s = surfaceBunker then some 0.65
  else none

/-- The velocity thresholds table (high, low); indexed only for green and
fairway in the source. -/
def velocityThresholds (s : String) : ℝ × ℝ :=
  if s = surfaceGreen then (15, 5)
  else if s = surfaceFairway then (20, 8)
  else (0, 0)

/-- The velocity-banded friction table (high, low); indexed only for green
and fairway in the source. -/
def velocityBasedFriction (s : String) : ℝ × ℝ :=
  if s = surfaceGreen then (0.95, 0.98)
  else if s = surfaceFairway then (0.85, 0.92)
  else (0, 0)

/-- PhysicsEngine.handleTerrainCollision: clamp to terrain height, pick the
surface-dependent bounce factor (with the extra halving of horizontal
velocity in bunkers), reflect the vertical velocity, apply base surface
friction to the horizontal components, and settle to the on-ground mode when
the remaining vertical speed is below 1. -/
def handleTerrainCollision (t : Terrain) (ball : Ball) (terrainHeight : ℝ) : Ball :=
  let pos : Vec3 := ⟨ball.position.x, terrainHeight, ball.position.z⟩
  let surfaceType := t.getSurfaceTypeAt pos.x pos.z
  let incomingVelocity := ball.velocity.length
  let bounceFactor : ℝ :=
    if surfaceType = surfaceGreen then (if incomingVelocity > 15 then 0.1 else 0.05)
    else if surfaceType = surfaceFairway then 0.3
    else if surfaceType = surfaceRough then 0.4
    else if surfaceType = surfaceBunker then (if incomingVelocity > 20 then 0.15 else 0.05)
    else 0.3
  let v1 : Vec3 :=
    if surfaceType = surfaceBunker then
      ⟨ball.velocity.x * 0.5, ball.velocity.y, ball.velocity.z * 0.5⟩
    else ball.velocity
  let v2 : Vec3 := ⟨v1.x, v1.y * -bounceFactor, v1.z⟩
  let friction := (frictionBase surfaceType).getD 0.85
  let v3 : Vec3 := ⟨v2.x * friction, v2.y, v2.z * friction⟩
  if |v3.y| < 1 then
    { ball with position := pos, velocity := ⟨v3.x, 0, v3.z⟩, inAir := false, onGround := true }
  else
    { ball with position := pos, velocity := v3 }

/-- PhysicsEngine.getTerrainFriction: null terrain falls back to the fairway
base friction; green and fairway use the velocity-banded friction with linear
interpolation between the bands; other surfaces use their base friction with
the fairway fallback. -/
def getTerrainFriction (ot : Option Terrain) (ballVelocity position : Vec3) : ℝ :=
  match ot with
  | none => 0.85
  | some t =>
    let surfaceType := t.getSurfaceTypeAt position.x position.z
    let velocity := ballVelocity.length
    if surfaceType = surfaceGreen ∨ surfaceType = surfaceFairway then
      let thresholds := velocityThresholds surfaceType
      let frictionValues := velocityBasedFriction surfaceType
      if velocity > thresholds.1 then frictionValues.1
      else if velocity < thresholds.2 then frictionValues.2
      else
        frictionValues.2 +
          (frictionValues.1 - frictionValues.2) *
            ((velocity - thresholds.2) / (thresholds.1 - thresholds.2))
    else (frictionBase surfaceType).getD 0.85

/-- The horizontal distance from the ball to the hole center, as computed
inside PhysicsEngine.isBallInHole. -/
def horizontalDistToHole (ball : Ball) (hole : Hole) : ℝ :=
  Real.sqrt ((ball.position.x - hole.position.x) ^ 2 + (ball.position.z - hole.position.z) ^ 2)

/-- PhysicsEngine.isBallInHole: the ball is captured when its horizontal
distance to the hole center is below the capture radius, its speed is below
0.5 and its height is within 0.5 of the hole height. -/
def isBallInHole (ball : Ball) (hole : Hole) : Prop :=
  Real.sqrt ((ball.position.x - hole.position.x) ^ 2 + (ball.position.z - hole.position.z) ^ 2)
      < hole.radius ∧
    ball.velocity.length < 0.5 ∧
    |ball.position.y - hole.position.y| < 0.5

/-- The on-ground body of PhysicsEngine.update: integrate the horizontal
position, re-sample the terrain height, apply the surface- and
speed-dependent rolling friction to the horizontal velocity, and zero the
velocity once it is almost stopped. -/
def groundBall (t : Terrain) (ball : Ball) (deltaTime : ℝ) : Ball :=
  if ball.velocity.lengthSq > 0.01 then
    let px := ball.position.x + ball.velocity.x * deltaTime
    let pz := ball.position.z + ball.velocity.z * deltaTime
    let th := getTerrainHeightAt (some t) px pz
    let pos : Vec3 := ⟨px, th, pz⟩
    let friction := getTerrainFriction (some t) ball.velocity pos
    let v : Vec3 := ⟨ball.velocity.x * friction, ball.velocity.y, ball.velocity.z * friction⟩
    let v2 : Vec3 := if v.lengthSq < 0.01 then ⟨0, 0, 0⟩ else v
    { ball with position := pos, velocity := v2 }
  else ball

/-- The in-air body of PhysicsEngine.update: gravity, clamped multiplicative
drag, wind acceleration above the motion threshold, position integration and
the near-ground collision check.  vSq is the squared speed measured at the
start of the tick. -/
def airBall (t : Terrain) (w : Wind) (ball : Ball) (deltaTime vSq : ℝ) : Ball :=
  let vGrav : Vec3 := ⟨ball.velocity.x, ball.velocity.y - 7.5 * deltaTime, ball.velocity.z⟩
  let velocityMagnitude := vGrav.length
  let dragRaw := 1 - 0.0002 * velocityMagnitude
  let dragEffect := if dragRaw < 0.1 then 0.1 else if dragRaw > 1 then 1 else dragRaw
  let vDrag : Vec3 := ⟨vGrav.x * dragEffect, vGrav.y * dragEffect, vGrav.z * dragEffect⟩
  let wf := getWindForce w
  let vWind : Vec3 :=
    if vSq > 0.1 then ⟨vDrag.x + wf.x * deltaTime, vDrag.y, vDrag.z + wf.z * deltaTime⟩
    else vDrag
  let pos : Vec3 :=
    ⟨ball.position.x + vWind.x * deltaTime,
     ball.position.y + vWind.y * deltaTime,
     ball.position.z + vWind.z * deltaTime⟩
  let ball1 : Ball := { ball with position := pos, velocity := vWind }
  if pos.y < 5 then
    let th := getTerrainHeightAt (some t) pos.x pos.z
    if pos.y < th then handleTerrainCollision t ball1 th else ball1
  else ball1

/-- The hole-capture pull vector: the horizontal direction toward the hole,
normalized (division by 1 when degenerate, as in THREE.normalize) and scaled
to the gentle pull 0.02. -/
def pullVec (holePos ballPos : Vec3) : Vec3 :=
  let p : Vec3 := ⟨holePos.x - ballPos.x, 0, holePos.z - ballPos.z⟩
  let l := p.length
  let d := if l = 0 then 1 else l
  ⟨p.x / d * 0.02, p.y / d * 0.02, p.z / d * 0.02⟩

/-- The mutable physics-engine state threaded through update: the ball, the
wind, and the hole descriptor. -/
structure PE where
  ball : Ball
  wind : Wind
  hole : Hole

/-- PhysicsEngine.update for one tick: the near-rest early return, the wind
refresh (only while moving fast enough), the self-heal of the modeless state,
the in-air or on-ground integration body, and finally the hole-suction pull
applied when the ball is within twice the capture radius and below the
suction speed threshold. -/
def update (t : Terrain) (s : PE) (deltaTime currentTime r1 r2 : ℝ) : PE :=
  if s.ball.velocity.lengthSq < 0.0001 then
    { s with ball := { s.ball with velocity := ⟨0, 0, 0⟩ } }
  else
    let w := if s.ball.velocity.lengthSq > 0.1 then updateWind s.wind currentTime r1 r2 else s.wind
    let b0 :=
      if s.ball.inAir = false ∧ s.ball.onGround = false ∧ s.ball.velocity.lengthSq > 0 then
        { s.ball with inAir := true }
      else s.ball
    let b1 :=
      if b0.inAir then airBall t w b0 deltaTime s.ball.velocity.lengthSq
      else if b0.onGround then groundBall t b0 deltaTime
      else b0
    let b2 :=
      if Real.sqrt ((b1.position.x - s.hole.position.x) ^ 2 + (b1.position.z - s.hole.position.z) ^ 2)
            < s.hole.radius * 2 ∧ s.ball.velocity.lengthSq < 0.16 then
        { b1 with velocity := b1.velocity.add (pullVec s.hole.position b1.position) }
      else b1
    { s with wind := w, ball := b2 }

/-- The final initial velocity the live shot path (ui.js takeShot) passes to
calculateShot at perfect accuracy: the base velocity interpolated between the
minimum 1.0 and maximum 60.0, times the perfect accuracy multiplier 1.0. -/
def takeShotFinalInitialVelocity (power : ℝ) : ℝ :=
  (1 + power * (60 - 1)) * 1

/-- The initial velocity vector the live shot path hands to the physics
engine for a given power, aim angle and club at perfect accuracy: the
velocity field set by calculateShot on the final initial velocity. -/
def takeShotVelocityVec (ball : Ball) (power aimAngle : ℝ) (club : String) : Vec3 :=
  (calculateShot ball (takeShotFinalInitialVelocity power) aimAngle club).1.velocity

/-- The initial velocity vector built by ui.js predictTrajectory: the input
power is floored at 0.01, mapped to a base velocity between 1.0 and 60.0,
scaled by the club multiplier and decomposed exactly as in calculateShot. -/
def predictTrajectoryInitialVelocity (inputPower aimAngle : ℝ) (club : String) : Vec3 :=
  let powerForPrediction := max 0.01 inputPower
  let clubConfig := clubConfigFor club
  let calculatedBaseVelocity := 1 + powerForPrediction * (60 - 1)
  let radAngle := degToRad clubConfig.angle
  let totalVelocityMagnitude := calculatedBaseVelocity * clubConfig.multiplier
  let horizontalVelocity := totalVelocityMagnitude * Real.cos radAngle
  let verticalVelocity := totalVelocityMagnitude * Real.sin radAngle
  ⟨horizontalVelocity * Real.cos aimAngle,
   verticalVelocity,
   horizontalVelocity * -Real.sin aimAngle⟩

/-! ### Concrete fixtures used by witnesses and counterexamples -/

/-- A 2 by 2 terrain of resolution 1 whose four vertices are all bunker. -/
def terrainBunker : Terrain :=
  ⟨2, 2, 1, [0, 0, 0, 0], [surfaceBunker, surfaceBunker, surfaceBunker, surfaceBunker]⟩

/-- A 2 by 2 terrain of resolution 1 whose four vertices are all green. -/
def terrainGreen : Terrain :=
  ⟨2, 2, 1, [0, 0, 0, 0], [surfaceGreen, surfaceGreen, surfaceGreen, surfaceGreen]⟩

/-- A resting ball used to instantiate universally quantified claims. -/
def defaultBall : Ball := ⟨⟨0, 0, 0⟩, ⟨0, 0, 0⟩, false, true, 0⟩

/-- A slow ball far from the hole. -/
def farBall : Ball := ⟨⟨10, 0, 0⟩, ⟨0, 0, 0⟩, false, true, 0⟩

/-- A hole of capture radius 0.3 at the origin. -/
def originHole : Hole := ⟨⟨0, 0, 0⟩, 0.3⟩

/-- A club identifier that is not a key of the club table. -/
def unknownClub : String := "gap3"

/-- The driver key of the club table. -/
def driverKey : String := "driver"

/-- A concrete on-ground state far from the hole. -/
def groundPE : PE := ⟨⟨⟨0, 0, 0⟩, ⟨1, 0, 0⟩, false, true, 0⟩, initWind, ⟨⟨250, 0, 0⟩, 0.3⟩⟩

/-- A modeless state with a tiny but nonzero velocity. -/
def tinyPE : PE := ⟨⟨⟨0, 0, 0⟩, ⟨0.005, 0, 0⟩, false, false, 0⟩, initWind, ⟨⟨250, 0, 0⟩, 0.3⟩⟩

/-- A modeless state with a clearly moving ball. -/
def modelessPE : PE := ⟨⟨⟨0, 0, 0⟩, ⟨1, 0, 0⟩, false, false, 0⟩, initWind, ⟨⟨250, 0, 0⟩, 0.3⟩⟩

/-- A ball entering a bunker at speed 25, descending at vertical speed 5. -/
def bunkerBall : Ball := ⟨⟨0, 1, 0⟩, ⟨Real.sqrt 600, -5, 0⟩, true, false, 0⟩

/-- A ball entering a bunker at speed 25 with the 7-24-25 decomposition. -/
def bunkerBallW : Ball := ⟨⟨0, 1, 0⟩, ⟨24, -7, 0⟩, true, false, 0⟩

/-! ### Helper lemmas -/

/-- Square roots of explicit squares. -/
theorem sqrt_eq_of_sq_eq {a b : ℝ} (hb : 0 ≤ b) (h : b ^ 2 = a) : Real.sqrt a = b := by
  subst h; exact Real.sqrt_sq hb

/-- Componentwise evaluation of the vector magnitude. -/
theorem Vec3.length_mk (x y z : ℝ) :
    Vec3.length ⟨x, y, z⟩ = Real.sqrt (x ^ 2 + y ^ 2 + z ^ 2) := rfl

/-- One updateWind call keeps the wind speed inside [5,20]. -/
theorem updateWind_speed_bounds {w : Wind} (h5 : 5 ≤ w.speed) (h20 : w.speed ≤ 20)
    (ct r1 r2 : ℝ) :
    5 ≤ (updateWind w ct r1 r2).speed ∧ (updateWind w ct r1 r2).speed ≤ 20 := by
  unfold updateWind
  split
  · refine ⟨le_max_left 5 _, ?_⟩
    exact max_le (by norm_num) (min_le_left 20 _)
  · exact ⟨h5, h20⟩

/-! ### Claims -/

/-- Claim C3: the hole-capture query holds exactly when the horizontal
distance to the hole center is below the capture radius, the speed is below
the capture threshold 0.5 and the height is within the tolerance 0.5 of the
hole height; in particular a ball at horizontal distance at least the capture
radius is never captured, however slow. -/
theorem isBallInHole_characterization (b : Ball) (h : Hole) :
    (isBallInHole b h ↔
      horizontalDistToHole b h < h.radius ∧ b.velocity.length < 0.5 ∧
        |b.position.y - h.position.y| < 0.5) ∧
    (h.radius ≤ horizontalDistToHole b h → ¬ isBallInHole b h) := by
  constructor
  · exact Iff.rfl
  · intro hd hin
    exact absurd hin.1 (not_lt.mpr hd)

/-- Witness for claim C3: a resting ball 10 units from the hole is not
captured even though its speed is zero. -/
theorem isBallInHole_characterization_witness : ¬ isBallInHole farBall originHole := by
  apply (isBallInHole_characterization farBall originHole).2
  have h10 : horizontalDistToHole farBall originHole = 10 := by
    unfold horizontalDistToHole farBall originHole
    rw [show ((10 : ℝ) - 0) ^ 2 + ((0 : ℝ) - 0) ^ 2 = 10 ^ 2 by norm_num]
    exact Real.sqrt_sq (by norm_num)
  rw [h10]
  unfold originHole
  norm_num

/-- Claim C4: every coordinate pair outside the terrain rectangle gets the
fallback height 0 and the fallback surface rough; both queries are total
functions in this embedding, so neither can fail. -/
theorem terrain_queries_out_of_bounds_defaults (t : Terrain) (x z : ℝ)
    (h : x < -(t.width / 2) ∨ x > t.width / 2 ∨ z < -(t.depth / 2) ∨ z > t.depth / 2) :
    t.getHeightAt x z = 0 ∧ t.getSurfaceTypeAt x z = surfaceRough := by
  constructor
  · simp only [Terrain.getHeightAt]
    rw [if_pos h]
  · simp only [Terrain.getSurfaceTypeAt]
    rw [if_pos h]

/-- Witness for claim C4: the point (5,0) lies outside the 2 by 2 fixture
terrain and gets height 0 and surface rough. -/
theorem terrain_queries_out_of_bounds_defaults_witness :
    terrainBunker.getHeightAt 5 0 = 0 ∧ terrainBunker.getSurfaceTypeAt 5 0 = surfaceRough := by
  apply terrain_queries_out_of_bounds_defaults terrainBunker 5 0
  right; left
  unfold terrainBunker
  norm_num

/-- Claim C9: starting from the initial wind state, any finite sequence of
updateWind calls leaves the wind speed between 5 and 20 inclusive. -/
theorem wind_speed_always_bounded (l : List (ℝ × ℝ × ℝ)) :
    5 ≤ (windAfter l).speed ∧ (windAfter l).speed ≤ 20 := by
  unfold windAfter
  have key : ∀ (l : List (ℝ × ℝ × ℝ)) (w : Wind), 5 ≤ w.speed → w.speed ≤ 20 →
      5 ≤ (l.foldl (fun w p => updateWind w p.1 p.2.1 p.2.2) w).speed ∧
        (l.foldl (fun w p => updateWind w p.1 p.2.1 p.2.2) w).speed ≤ 20 := by
    intro l
    induction l with
    | nil => intro w h5 h20; exact ⟨h5, h20⟩
    | cons p tl ih =>
      intro w h5 h20
      simp only [List.foldl_cons]
      obtain ⟨a, b⟩ := updateWind_speed_bounds h5 h20 p.1 p.2.1 p.2.2
      exact ih _ a b
  exact key l initWind (by unfold initWind; norm_num) (by unfold initWind; norm_num)

/-- Claim C10: a club identifier outside the club table makes calculateShot
fall back to the driver record, so it produces exactly the driver result and
still returns true. -/
theorem unknown_club_defaults_to_driver (b : Ball) (iv aim : ℝ) (c : String)
    (h : clubStats c = none) :
    calculateShot b iv aim c = calculateShot b iv aim driverKey ∧
      (calculateShot b iv aim c).2 = true := by
  have hc : clubConfigFor c = driverStat := by
    unfold clubConfigFor
    rw [h]
    rfl
  have hd : clubConfigFor driverKey = driverStat := by
    unfold clubConfigFor clubStats driverKey
    rw [if_pos rfl]
    rfl
  refine ⟨?_, rfl⟩
  unfold calculateShot
  rw [hc, hd]

/-- Witness for claim C10: the unknown identifier gap3 behaves exactly like
the driver and the shot reports success. -/
theorem unknown_club_defaults_to_driver_witness :
    calculateShot defaultBall 30 0 unknownClub = calculateShot defaultBall 30 0 driverKey ∧
      (calculateShot defaultBall 30 0 unknownClub).2 = true := by
  apply unknown_club_defaults_to_driver defaultBall 30 0 unknownClub
  simp [clubStats, unknownClub]

/-- Surface lookup at the origin of a uniform 2 by 2 fixture terrain. -/
theorem fixture_surface_at_origin (s : String) :
    Terrain.getSurfaceTypeAt ⟨2, 2, 1, [0, 0, 0, 0], [s, s, s, s]⟩ 0 0 = s := by
  simp only [Terrain.getSurfaceTypeAt]
  rw [if_neg (by norm_num)]
  have hfloor : ⌊((0 : ℝ) + 2 / 2) / 2 * ((1 : ℕ) : ℝ)⌋ = 0 := by
    rw [Int.floor_eq_zero_iff]
    constructor <;> norm_num
  rw [hfloor]
  norm_num

/-- Claim C7: on green, at speed 3 (below the low threshold 5), the friction
function returns exactly the configured low-friction constant 0.98. -/
theorem green_slow_friction_low_constant (t : Terrain) (v pos : Vec3)
    (hs : t.getSurfaceTypeAt pos.x pos.z = surfaceGreen) (hv : v.length = 3) :
    getTerrainFriction (some t) v pos = 0.98 := by
  simp only [getTerrainFriction]
  rw [hs, hv]
  rw [if_pos (Or.inl rfl)]
  unfold velocityThresholds velocityBasedFriction
  rw [if_pos rfl, if_pos rfl]
  rw [if_neg (by norm_num), if_pos (by norm_num)]

/-- Witness for claim C7: a ball moving at speed 3 at the origin of the green
fixture terrain gets friction exactly 0.98. -/
theorem green_slow_friction_low_constant_witness :
    getTerrainFriction (some terrainGreen) ⟨3, 0, 0⟩ ⟨0, 0, 0⟩ = 0.98 := by
  apply green_slow_friction_low_constant
  · exact fixture_surface_at_origin surfaceGreen
  · rw [Vec3.length_mk]
    rw [show (3 : ℝ) ^ 2 + 0 ^ 2 + 0 ^ 2 = 3 ^ 2 by norm_num]
    exact Real.sqrt_sq (by norm_num)

/-- The zero vector has magnitude 0. -/
theorem Vec3.length_zero_vec : Vec3.length ⟨0, 0, 0⟩ = 0 := by
  rw [Vec3.length_mk]
  rw [show (0 : ℝ) ^ 2 + 0 ^ 2 + 0 ^ 2 = 0 by norm_num]
  exact Real.sqrt_zero

/-- Every friction multiplier the engine can return lies in (0,1]. -/
theorem getTerrainFriction_bounds (ot : Option Terrain) (v pos : Vec3) :
    0 < getTerrainFriction ot v pos ∧ getTerrainFriction ot v pos ≤ 1 := by
  match ot with
  | none =>
    simp only [getTerrainFriction]
    norm_num
  | some t =>
    simp only [getTerrainFriction]
    by_cases hgf : t.getSurfaceTypeAt pos.x pos.z = surfaceGreen ∨
        t.getSurfaceTypeAt pos.x pos.z = surfaceFairway
    · rw [if_pos hgf]
      rcases hgf with hg | hf
      · rw [hg]
        rw [show velocityThresholds surfaceGreen = (15, 5) from by
          unfold velocityThresholds; rw [if_pos rfl]]
        rw [show velocityBasedFriction surfaceGreen = (0.95, 0.98) from by
          unfold velocityBasedFriction; rw [if_pos rfl]]
        dsimp only
        by_cases hhi : v.length > 15
        · rw [if_pos hhi]; norm_num
        · rw [if_neg hhi]
          by_cases hlo : v.length < 5
          · rw [if_pos hlo]; norm_num
          · rw [if_neg hlo]
            have h5 : (5 : ℝ) ≤ v.length := le_of_not_lt hlo
            have h15 : v.length ≤ 15 := le_of_not_lt hhi
            constructor <;> [linarith; linarith]
      · rw [hf]
        have hne : surfaceFairway ≠ surfaceGreen := by decide
        rw [show velocityThresholds surfaceFairway = (20, 8) from by
          unfold velocityThresholds; rw [if_neg hne, if_pos rfl]]
        rw [show velocityBasedFriction surfaceFairway = (0.85, 0.92) from by
          unfold velocityBasedFriction; rw [if_neg hne, if_pos rfl]]
        dsimp only
        by_cases hhi : v.length > 20
        · rw [if_pos hhi]; norm_num
        · rw [if_neg hhi]
          by_cases hlo : v.length < 8
          · rw [if_pos hlo]; norm_num
          · rw [if_neg hlo]
            have h8 : (8 : ℝ) ≤ v.length := le_of_not_lt hlo
            have h20 : v.length ≤ 20 := le_of_not_lt hhi
            constructor <;> [linarith; linarith]
    · rw [if_neg hgf]
      unfold frictionBase
      repeat' split
      all_goals simp only [Option.getD_some, Option.getD_none]
      all_goals norm_num

/-- Scaling the two horizontal components by a factor in [0,1] never
increases the magnitude. -/
theorem length_scale_le (x y z f : ℝ) (h0 : 0 ≤ f) (h1 : f ≤ 1) :
    Vec3.length ⟨x * f, y, z * f⟩ ≤ Vec3.length ⟨x, y, z⟩ := by
  unfold Vec3.length Vec3.lengthSq
  apply Real.sqrt_le_sqrt
  dsimp only
  have hf2 : f ^ 2 ≤ 1 := by nlinarith
  have hx : (x * f) ^ 2 ≤ x ^ 2 := by nlinarith [sq_nonneg x]
  have hz : (z * f) ^ 2 ≤ z ^ 2 := by nlinarith [sq_nonneg z]
  linarith

/-- One on-ground integration body never increases the speed. -/
theorem groundBall_speed_le (t : Terrain) (b : Ball) (dt : ℝ) :
    (groundBall t b dt).velocity.length ≤ b.velocity.length := by
  unfold groundBall
  split
  · dsimp only
    split
    · rw [Vec3.length_zero_vec]
      exact Real.sqrt_nonneg _
    · apply length_scale_le
      · exact (getTerrainFriction_bounds _ _ _).1.le
      · exact (getTerrainFriction_bounds _ _ _).2
  · exact le_refl _

/-- Claim C6: a per-tick update entered in the on-ground mode, in which the
hole-suction branch does not fire, never increases the speed of the ball. -/
theorem onGround_update_speed_nonincreasing (t : Terrain) (s : PE)
    (dt ct r1 r2 : ℝ)
    (hAir : s.ball.inAir = false) (hG : s.ball.onGround = true)
    (hNoPull : ¬ (Real.sqrt (((groundBall t s.ball dt).position.x - s.hole.position.x) ^ 2 +
        ((groundBall t s.ball dt).position.z - s.hole.position.z) ^ 2) < s.hole.radius * 2 ∧
        s.ball.velocity.lengthSq < 0.16)) :
    (update t s dt ct r1 r2).ball.velocity.length ≤ s.ball.velocity.length := by
  unfold update
  split
  · dsimp only
    rw [Vec3.length_zero_vec]
    exact Real.sqrt_nonneg _
  · dsimp only
    simp only [hAir, hG, eq_self_iff_true, Bool.true_eq_false, Bool.false_eq_true, true_and,
      false_and, and_false, and_true, if_false, if_true, ite_true, ite_false]
    rw [if_neg hNoPull]
    exact groundBall_speed_le t s.ball dt

/-- Witness for claim C6: a concrete on-ground tick far from the hole does
not speed the ball up. -/
theorem onGround_update_speed_nonincreasing_witness :
    (update terrainGreen groundPE 1 0 0 0).ball.velocity.length ≤
      groundPE.ball.velocity.length := by
  apply onGround_update_speed_nonincreasing
  · rfl
  · rfl
  · intro h
    have h2 := h.2
    norm_num [groundPE, Vec3.lengthSq] at h2

/-- Every club record reachable from the table has a positive multiplier. -/
theorem clubStats_multiplier_pos {c : String} {st : ClubStat} (h : clubStats c = some st) :
    0 < st.multiplier := by
  unfold clubStats at h
  repeat' split at h
  all_goals first
    | (injection h with h2; subst h2; norm_num)
    | exact absurd h (by simp)

/-- The lookup with driver fallback always yields a positive multiplier. -/
theorem clubConfigFor_multiplier_pos (c : String) : 0 < (clubConfigFor c).multiplier := by
  unfold clubConfigFor
  cases h : clubStats c with
  | none =>
    simp only [Option.getD_none]
    unfold driverStat
    norm_num
  | some st =>
    simp only [Option.getD_some]
    exact clubStats_multiplier_pos h

/-- The driver key resolves to the driver record. -/
theorem clubConfigFor_driver : clubConfigFor driverKey = driverStat := by
  unfold clubConfigFor clubStats driverKey
  rw [if_pos rfl]
  rfl

/-- The magnitude of the decomposed shot vector is the absolute total
velocity: the launch-angle split and the aim rotation preserve magnitude. -/
theorem length_shot_vec (T r a : ℝ) :
    Vec3.length ⟨T * Real.cos r * Real.cos a, T * Real.sin r, T * Real.cos r * -Real.sin a⟩
      = |T| := by
  rw [Vec3.length_mk]
  have h : (T * Real.cos r * Real.cos a) ^ 2 + (T * Real.sin r) ^ 2 +
      (T * Real.cos r * -Real.sin a) ^ 2 =
      T ^ 2 * ((Real.sin r) ^ 2 + (Real.cos r) ^ 2 * ((Real.sin a) ^ 2 + (Real.cos a) ^ 2)) := by
    ring
  rw [h, Real.sin_sq_add_cos_sq, mul_one, Real.sin_sq_add_cos_sq, mul_one]
  exact Real.sqrt_sq_eq_abs T

/-- The velocity vector produced by calculateShot when the input velocity is
at least 1 (so the small-velocity clamp is inactive). -/
theorem calculateShot_velocity_of_ge_one (b : Ball) (iv a : ℝ) (c : String) (h : 1 ≤ iv) :
    (calculateShot b iv a c).1.velocity =
      ⟨iv * (clubConfigFor c).multiplier * Real.cos (degToRad (clubConfigFor c).angle) *
        Real.cos a,
       iv * (clubConfigFor c).multiplier * Real.sin (degToRad (clubConfigFor c).angle),
       iv * (clubConfigFor c).multiplier * Real.cos (degToRad (clubConfigFor c).angle) *
        -Real.sin a⟩ := by
  unfold calculateShot
  dsimp only
  rw [if_neg (not_lt.mpr h)]

/-- The magnitude of the live-shot initial velocity vector, for powers at
least 0. -/
theorem takeShotVelocityVec_length (b : Ball) (p a : ℝ) (c : String) (hp : 0 ≤ p) :
    (takeShotVelocityVec b p a c).length =
      (1 + p * (60 - 1)) * 1 * (clubConfigFor c).multiplier := by
  unfold takeShotVelocityVec
  rw [calculateShot_velocity_of_ge_one b _ a c (by unfold takeShotFinalInitialVelocity; nlinarith)]
  rw [length_shot_vec]
  rw [abs_of_nonneg]
  · unfold takeShotFinalInitialVelocity
    rfl
  · apply mul_nonneg
    · unfold takeShotFinalInitialVelocity
      nlinarith
    · exact (clubConfigFor_multiplier_pos c).le

/-- Claim C5: for a fixed club and aim, the magnitude of the live-shot
initial velocity vector is non-decreasing in the power over [0,1]. -/
theorem shot_speed_monotone_in_power (b : Ball) (p1 p2 aimAngle : ℝ) (club : String)
    (h0 : 0 ≤ p1) (h12 : p1 ≤ p2) (h1 : p2 ≤ 1) :
    (takeShotVelocityVec b p1 aimAngle club).length ≤
      (takeShotVelocityVec b p2 aimAngle club).length := by
  rw [takeShotVelocityVec_length b p1 aimAngle club h0,
    takeShotVelocityVec_length b p2 aimAngle club (le_trans h0 h12)]
  have hm := clubConfigFor_multiplier_pos club
  nlinarith

/-- Witness for claim C5: with the driver at aim 0, power 0 gives a speed no
larger than power 1. -/
theorem shot_speed_monotone_in_power_witness :
    (takeShotVelocityVec defaultBall 0 0 driverKey).length ≤
      (takeShotVelocityVec defaultBall 1 0 driverKey).length :=
  shot_speed_monotone_in_power defaultBall 0 1 0 driverKey (by norm_num) (by norm_num)
    (by norm_num)

/-- Claim C1 (amended): for powers in [0.01, 1], where the prediction floor
max(0.01, power) is inactive, the trajectory predictor builds exactly the
initial velocity vector the live shot path passes to the physics engine at
perfect accuracy. -/
theorem predict_matches_takeShot_on_floored_power (b : Ball) (power aimAngle : ℝ)
    (club : String) (hlo : 0.01 ≤ power) (hhi : power ≤ 1) :
    predictTrajectoryInitialVelocity power aimAngle club =
      takeShotVelocityVec b power aimAngle club := by
  unfold predictTrajectoryInitialVelocity takeShotVelocityVec
  rw [calculateShot_velocity_of_ge_one b _ aimAngle club
    (by unfold takeShotFinalInitialVelocity; nlinarith)]
  rw [max_eq_right hlo]
  unfold takeShotFinalInitialVelocity
  dsimp only
  simp only [Vec3.mk.injEq]
  refine ⟨by ring, by ring, by ring⟩

/-- Witness for claim C1: at power one half the predictor and the live shot
path agree exactly. -/
theorem predict_matches_takeShot_witness :
    predictTrajectoryInitialVelocity 0.5 0 driverKey =
      takeShotVelocityVec defaultBall 0.5 0 driverKey :=
  predict_matches_takeShot_on_floored_power defaultBall 0.5 0 driverKey (by norm_num)
    (by norm_num)

/-- Counterexample for claim C1 as stated: at power 0 the predictor floors
the power at 0.01 but the live shot path does not, so the two initial
velocity vectors differ. -/
theorem predict_diverges_from_takeShot_at_zero_power :
    predictTrajectoryInitialVelocity 0 0 driverKey ≠ takeShotVelocityVec defaultBall 0 0 driverKey := by
  have hpred : (predictTrajectoryInitialVelocity 0 0 driverKey).x
      = (1 + 0.01 * (60 - 1)) * 2.8 * Real.cos (degToRad 12) := by
    unfold predictTrajectoryInitialVelocity
    rw [clubConfigFor_driver]
    dsimp only [driverStat]
    rw [max_eq_left (by norm_num : (0 : ℝ) ≤ 0.01)]
    rw [Real.cos_zero]
    ring
  have hlive : (takeShotVelocityVec defaultBall 0 0 driverKey).x
      = (1 + 0 * (60 - 1)) * 1 * 2.8 * Real.cos (degToRad 12) := by
    unfold takeShotVelocityVec
    rw [calculateShot_velocity_of_ge_one defaultBall _ 0 driverKey
      (by unfold takeShotFinalInitialVelocity; norm_num)]
    rw [clubConfigFor_driver]
    dsimp only [driverStat]
    rw [Real.cos_zero]
    unfold takeShotFinalInitialVelocity
    ring
  have hcpos : 0 < Real.cos (degToRad 12) := by
    apply Real.cos_pos_of_mem_Ioo
    constructor
    · unfold degToRad
      nlinarith [Real.pi_pos]
    · unfold degToRad
      nlinarith [Real.pi_pos]
  intro h
  have hx := congrArg Vec3.x h
  rw [hpred, hlive] at hx
  nlinarith [hcpos, hx]

/-- Counterexample for claim C8 as stated: a ball that is neither in-air nor
on-ground but carries the nonzero velocity (0.005, 0, 0) hits the near-rest
early return, which zeroes the velocity without ever forcing the in-air
mode. -/
theorem modeless_tiny_velocity_not_self_healed :
    tinyPE.ball.velocity ≠ ⟨0, 0, 0⟩ ∧ tinyPE.ball.inAir = false ∧
      tinyPE.ball.onGround = false ∧
      (update terrainGreen tinyPE 1 0 0 0).ball.inAir = false := by
  refine ⟨?_, rfl, rfl, ?_⟩
  · intro h
    have hx := congrArg Vec3.x h
    norm_num [tinyPE] at hx
  · unfold update
    rw [if_pos (by norm_num [tinyPE, Vec3.lengthSq])]
    rfl

/-- Claim C8 (amended): when the update is entered with the ball neither
in-air nor on-ground while its squared speed is at least the rest threshold
0.0001, the tick behaves exactly as if the ball had been in the in-air mode:
the simulator self-heals instead of failing.  Below that threshold the early
return zeroes the velocity instead. -/
theorem modeless_update_forces_inAir (t : Terrain) (s : PE) (dt ct r1 r2 : ℝ)
    (hAir : s.ball.inAir = false) (hG : s.ball.onGround = false)
    (hv : 0.0001 ≤ s.ball.velocity.lengthSq) :
    update t s dt ct r1 r2 =
      update t { s with ball := { s.ball with inAir := true } } dt ct r1 r2 := by
  have hvne : ¬s.ball.velocity.lengthSq < 0.0001 := not_lt.mpr hv
  have hpos : s.ball.velocity.lengthSq > 0 := lt_of_lt_of_le (by norm_num) hv
  unfold update
  dsimp only
  rw [if_neg hvne, if_neg hvne]
  simp only [hAir, hG, hpos, eq_self_iff_true, Bool.true_eq_false, Bool.false_eq_true, true_and,
    false_and, and_false, and_true, if_false, if_true, ite_true, ite_false]

/-- Witness for claim C8: a concrete modeless moving state is updated exactly
as the same state forced into the in-air mode. -/
theorem modeless_update_forces_inAir_witness :
    update terrainGreen modelessPE 1 0 0 0 =
      update terrainGreen { modelessPE with ball := { modelessPE.ball with inAir := true } }
        1 0 0 0 :=
  modeless_update_forces_inAir terrainGreen modelessPE 1 0 0 0 rfl rfl
    (by norm_num [modelessPE, Vec3.lengthSq])

/-- The vertical component is bounded by the full magnitude. -/
theorem abs_y_le_length (v : Vec3) : |v.y| ≤ v.length := by
  unfold Vec3.length Vec3.lengthSq
  rw [← Real.sqrt_sq_eq_abs]
  apply Real.sqrt_le_sqrt
  nlinarith [sq_nonneg v.x, sq_nonneg v.z]

/-- The combined bunker halving and bunker base friction keep a horizontal
component within half of its previous magnitude. -/
theorem abs_half_scale (x : ℝ) : |x * 0.5 * 0.65| ≤ 0.5 * |x| := by
  rw [abs_mul, abs_mul]
  rw [show |(0.5 : ℝ)| = 0.5 by norm_num, show |(0.65 : ℝ)| = 0.65 by norm_num]
  nlinarith [abs_nonneg x]

/-- Claim C2 (amended): a bunker collision at incoming speed 25 leaves each
horizontal component within 50 percent of its previous magnitude, and leaves
the vertical velocity either reversed through the bounce factor 0.15 with
magnitude at most 15 percent of the incoming speed, or zeroed by the
on-ground settling rule; the product of old and new vertical velocity is
never positive. -/
theorem bunker_collision_speed25_velocity_bounds (t : Terrain) (b : Ball) (th : ℝ)
    (hs : t.getSurfaceTypeAt b.position.x b.position.z = surfaceBunker)
    (hv : b.velocity.length = 25) :
    |(handleTerrainCollision t b th).velocity.x| ≤ 0.5 * |b.velocity.x| ∧
      |(handleTerrainCollision t b th).velocity.z| ≤ 0.5 * |b.velocity.z| ∧
      (handleTerrainCollision t b th).velocity.y * b.velocity.y ≤ 0 ∧
      |(handleTerrainCollision t b th).velocity.y| ≤ 0.15 * 25 := by
  have habsy : |b.velocity.y| ≤ 25 := hv ▸ abs_y_le_length b.velocity
  simp only [handleTerrainCollision, hs, hv, surfaceBunker, surfaceGreen, surfaceFairway,
    surfaceRough, frictionBase, String.reduceEq, reduceIte, Option.getD_some]
  rw [if_pos (by norm_num : (25 : ℝ) > 20)]
  split
  · refine ⟨abs_half_scale b.velocity.x, abs_half_scale b.velocity.z, ?_, ?_⟩
    · simp
    · simp only [abs_zero]
      norm_num
  · refine ⟨abs_half_scale b.velocity.x, abs_half_scale b.velocity.z, ?_, ?_⟩
    · nlinarith [sq_nonneg b.velocity.y]
    · rw [abs_mul, show |(-0.15 : ℝ)| = 0.15 by norm_num]
      nlinarith [habsy, abs_nonneg b.velocity.y]

/-- Counterexample for claim C2 as stated: a ball hitting a bunker at speed
exactly 25 while descending at vertical speed 5 gets its vertical velocity
zeroed by the settling rule (0.75 is below the threshold 1), so the sign
does not flip. -/
theorem bunker_collision_vertical_not_flipped_at_speed25 :
    bunkerBall.velocity.length = 25 ∧
      terrainBunker.getSurfaceTypeAt bunkerBall.position.x bunkerBall.position.z =
        surfaceBunker ∧
      bunkerBall.velocity.y < 0 ∧
      (handleTerrainCollision terrainBunker bunkerBall 0).velocity.y = 0 := by
  have hlen : Vec3.length ⟨Real.sqrt 600, -5, 0⟩ = 25 := by
    rw [Vec3.length_mk]
    rw [Real.sq_sqrt (by norm_num : (0 : ℝ) ≤ 600)]
    rw [show (600 : ℝ) + (-5 : ℝ) ^ 2 + (0 : ℝ) ^ 2 = 25 ^ 2 by norm_num]
    exact Real.sqrt_sq (by norm_num)
  have hsurf : terrainBunker.getSurfaceTypeAt 0 0 = surfaceBunker := by
    unfold terrainBunker
    exact fixture_surface_at_origin surfaceBunker
  refine ⟨hlen, hsurf, by norm_num [bunkerBall], ?_⟩
  simp only [handleTerrainCollision, bunkerBall, hsurf, hlen, surfaceBunker, surfaceGreen,
    surfaceFairway, surfaceRough, frictionBase, String.reduceEq, reduceIte, Option.getD_some]
  norm_num [abs_lt]

/-- Witness for claim C2: the concrete 7-24-25 bunker impact satisfies the
amended bounds. -/
theorem bunker_collision_speed25_velocity_bounds_witness :
    |(handleTerrainCollision terrainBunker bunkerBallW 0).velocity.x| ≤
        0.5 * |bunkerBallW.velocity.x| ∧
      |(handleTerrainCollision terrainBunker bunkerBallW 0).velocity.z| ≤
        0.5 * |bunkerBallW.velocity.z| ∧
      (handleTerrainCollision terrainBunker bunkerBallW 0).velocity.y *
          bunkerBallW.velocity.y ≤ 0 ∧
      |(handleTerrainCollision terrainBunker bunkerBallW 0).velocity.y| ≤ 0.15 * 25 := by
  have hsurf : terrainBunker.getSurfaceTypeAt 0 0 = surfaceBunker := by
    unfold terrainBunker
    exact fixture_surface_at_origin surfaceBunker
  apply bunker_collision_speed25_velocity_bounds
  · exact hsurf
  · show Vec3.length ⟨24, -7, 0⟩ = 25
    rw [Vec3.length_mk]
    rw [show (24 : ℝ) ^ 2 + (-7 : ℝ) ^ 2 + (0 : ℝ) ^ 2 = 25 ^ 2 by norm_num]
    exact Real.sqrt_sq (by norm_num)

end

end GolfGame
